import Mathlib

/-!
Shallow embedding of the `gfx` components of the real-time-pbr repository:
`src/gfx/game_window.cc` (window/context setup, shader compilation and
linking, projection updates, the per-frame render protocol) and
`src/gfx/material.cc` (uniform/texture binding and texture removal).

The OpenGL / GLFW backend is external to the repository.  It is modelled as
an oracle environment `Env` supplying the results of backend queries
(file reads, handle creation, compile/link status, framebuffer size,
uniform locations), and every backend call the code performs is recorded in
an event trace (`GLEvent`).  C++ `float` values that the code merely stores
and forwards (field of view, shininess, colors) are modelled as `Rat`;
the external matrix function `glm::perspective` is modelled symbolically by
a structure recording its arguments, since the math library is an external
collaborator and no claim depends on matrix entries.
-/

namespace Gfx

/-- OpenGL enum constant GL_VERTEX_SHADER (0x8B31). -/
def GL_VERTEX_SHADER : Nat := 35633

/-- OpenGL enum constant GL_FRAGMENT_SHADER (0x8B30). -/
def GL_FRAGMENT_SHADER : Nat := 35632

/-- OpenGL enum constant GL_TEXTURE0 (0x84C0), the first texture unit. -/
def GL_TEXTURE0 : Nat := 33984

/-- OpenGL enum constant GL_TEXTURE1 (0x84C1), the second texture unit. -/
def GL_TEXTURE1 : Nat := 33985

/-- OpenGL enum constant GL_TEXTURE_2D (0x0DE1). -/
def GL_TEXTURE_2D : Nat := 3553

/-- OpenGL mask constant GL_COLOR_BUFFER_BIT (0x4000). -/
def GL_COLOR_BUFFER_BIT : Nat := 16384

/-- OpenGL mask constant GL_DEPTH_BUFFER_BIT (0x0100). -/
def GL_DEPTH_BUFFER_BIT : Nat := 256

/-- OpenGL capability constant GL_DEPTH_TEST (0x0B71). -/
def GL_DEPTH_TEST : Nat := 2929

/-- RGBA clear color, as passed to `glClearColor` (gfx::Color). -/
structure Color where
  r : Rat
  g : Rat
  b : Rat
  a : Rat
deriving DecidableEq, Repr

/-- Symbolic model of the matrix returned by
`glm::perspective(glm::radians(fovDeg), aspect, zNear, zFar)`.  glm is an
external math library, so the matrix is represented by the arguments the
code passes to it; `fovDeg` is the degree value fed through `glm::radians`. -/
structure PerspectiveMatrix where
  fovDeg : Rat
  aspect : Rat
  zNear : Rat
  zFar : Rat
deriving DecidableEq, Repr

/-- Value stored in the `perspective_projection` member (a `glm::mat4`):
either the default-constructed matrix from the member initializer, or the
result of a `glm::perspective` call. -/
inductive Mat4 where
  | initial : Mat4
  | persp : PerspectiveMatrix → Mat4
deriving DecidableEq, Repr

/-- Data uploaded by a `glUniformMatrix4fv` call: either the camera view
transform (an opaque external value, identified by a tag from the
environment) or the stored projection matrix. -/
inductive UniformMat where
  | view : Nat → UniformMat
  | proj : Mat4 → UniformMat
deriving DecidableEq, Repr

/-- One call into the OpenGL / GLFW backend, as issued by the code.
Handles returned by the backend are recorded in the event so that traces
are self-contained. -/
inductive GLEvent where
  | windowHint (name : String) (value : Int)
  | createWindow (ok : Bool)
  | glfwTerminateE
  | makeContextCurrent
  | gladLoadGL
  | enable (cap : Nat)
  | clearColor (c : Color)
  | setWindowSize (w h : Int)
  | getFramebufferSize
  | viewport (x y w h : Int)
  | createShader (ty ret : Nat)
  | shaderSource (shader : Nat) (src : String)
  | compileShaderE (shader : Nat)
  | getShaderiv (shader : Nat)
  | createProgram (ret : Nat)
  | attachShader (prog shader : Nat)
  | linkProgramE (prog : Nat)
  | deleteShader (shader : Nat)
  | getProgramiv (prog : Nat)
  | useProgram (prog : Nat)
  | clear (mask : Nat)
  | getUniformLocation (prog : Nat) (name : String)
  | uniformMatrix4fv (loc : Int) (m : UniformMat)
  | uniform1f (loc : Int) (v : Rat)
  | uniform1i (loc : Int) (v : Int)
  | activeTexture (unit : Nat)
  | bindTexture (target handle : Nat)
  | modelDraw (inst prog : Nat)
  | swapBuffers
deriving DecidableEq, Repr

/-- Oracle environment: the responses of the external backend (file
system, GL object creation, statuses, framebuffer queries, uniform
locations, camera).  The code never inspects these beyond what it stores or
branches on. -/
structure Env where
  /-- File system: `some content` when the file at the path can be opened
  and read, `none` when it cannot. -/
  fs : String → Option String
  /-- Handle returned by `glCreateShader` for a given shader type. -/
  createShader : Nat → Nat
  /-- GL_COMPILE_STATUS reported for a shader handle. -/
  compileStatus : Nat → Bool
  /-- Handle returned by `glCreateProgram`. -/
  createProgram : Nat
  /-- GL_LINK_STATUS reported for a program handle. -/
  linkStatus : Nat → Bool
  /-- Whether `glfwCreateWindow` succeeds. -/
  windowCreated : Bool
  /-- Real framebuffer size reported by `glfwGetFramebufferSize`
  (may differ from the requested window size, e.g. DPI scaling). -/
  framebufferSize : Int × Int
  /-- Location returned by `glGetUniformLocation` for a program and name. -/
  uniformLocation : Nat → String → Int
  /-- Opaque tag for the matrix returned by `camera->GetViewTransform()`. -/
  viewTransform : Nat

/-- The single exception type the constructors throw
(gfx::GameWindowCannotBeInitializedException, from gfx/exceptions.h). -/
inductive GfxException where
  | GameWindowCannotBeInitializedException : GfxException
deriving DecidableEq, Repr

/-! ### Material (src/gfx/material.cc) -/

/-- gfx::Material: two texture handles (0 means no texture of that kind)
plus two scalar shading coefficients. -/
structure Material where
  shininess : Rat
  ambient_coefficient : Rat
  diffuse_handle : Nat
  specular_handle : Nat
deriving DecidableEq, Repr

/-- gfx::Material 4-argument constructor. -/
def Material.mkFull (diffuse_handle specular_handle : Nat) (shininess ambient : Rat) :
    Material :=
  { shininess := shininess, ambient_coefficient := ambient,
    diffuse_handle := diffuse_handle, specular_handle := specular_handle }

/-- gfx::Material 3-argument constructor, delegating with ambient 0.03. -/
def Material.mkDefault (diffuse_handle specular_handle : Nat) (shininess : Rat) :
    Material :=
  Material.mkFull diffuse_handle specular_handle shininess (3 / 100)

/-- gfx::Material::UseMaterial (the Bind operation of the spec): uploads
the scalar coefficients, then the diffuse-enabled flag with, when the
diffuse handle is non-zero, an activate/bind/sampler-wire on texture unit
0, then the same independently for specular on texture unit 1. -/
def Material.UseMaterial (env : Env) (m : Material) (program : Nat) : List GLEvent :=
  [GLEvent.getUniformLocation program "ambient_coefficient",
   GLEvent.uniform1f (env.uniformLocation program "ambient_coefficient") m.ambient_coefficient,
   GLEvent.getUniformLocation program "shininess",
   GLEvent.uniform1f (env.uniformLocation program "shininess") m.shininess,
   GLEvent.getUniformLocation program "diffuse_enabled",
   GLEvent.uniform1i (env.uniformLocation program "diffuse_enabled")
     (if m.diffuse_handle ≠ 0 then 1 else 0)]
  ++ (if m.diffuse_handle ≠ 0 then
       [GLEvent.activeTexture GL_TEXTURE0,
        GLEvent.bindTexture GL_TEXTURE_2D m.diffuse_handle,
        GLEvent.getUniformLocation program "diffuse_texture",
        GLEvent.uniform1i (env.uniformLocation program "diffuse_texture") 0]
      else [])
  ++ [GLEvent.getUniformLocation program "specular_enabled",
      GLEvent.uniform1i (env.uniformLocation program "specular_enabled")
        (if m.specular_handle ≠ 0 then 1 else 0)]
  ++ (if m.specular_handle ≠ 0 then
       [GLEvent.activeTexture GL_TEXTURE1,
        GLEvent.bindTexture GL_TEXTURE_2D m.specular_handle,
        GLEvent.getUniformLocation program "specular_texture",
        GLEvent.uniform1i (env.uniformLocation program "specular_texture") 1]
      else [])

/-- gfx::Material::RemoveTexture: clear the diffuse handle to 0 when it
equals the given id, and independently the specular handle. -/
def Material.RemoveTexture (m : Material) (id : Nat) : Material :=
  let m1 := if m.diffuse_handle = id then { m with diffuse_handle := 0 } else m
  if m1.specular_handle = id then { m1 with specular_handle := 0 } else m1

/-- Texture handles bound by `glBindTexture` events of a trace while a given
texture unit is the active one; `initUnit` is the active unit when the trace
starts (GL defaults to GL_TEXTURE0, but the property is stated for any). -/
def bindsToUnit (initUnit : Nat) (t : List GLEvent) (u : Nat) : List Nat :=
  (t.foldl
    (fun acc e =>
      match e with
      | GLEvent.activeTexture un => (un, acc.2)
      | GLEvent.bindTexture _ h => (acc.1, if acc.1 = u then acc.2 ++ [h] else acc.2)
      | _ => acc)
    (initUnit, ([] : List Nat))).2

/-! ### GameWindow (src/gfx/game_window.cc) -/

/-- Members of gfx::GameWindow that the embedded operations read or write:
the stored field of view, the shader program handle, and the projection
matrix.  The camera pointer and GLFW window pointer are opaque and are
represented by the environment instead. -/
structure GameWindowState where
  field_of_view : Rat
  program : Nat
  perspective_projection : Mat4
deriving DecidableEq, Repr

/-- Symbolic call `glm::perspective(glm::radians(fovDeg), aspect, zNear, zFar)`. -/
def glmPerspective (fovDeg aspect zNear zFar : Rat) : PerspectiveMatrix :=
  { fovDeg := fovDeg, aspect := aspect, zNear := zNear, zFar := zFar }

/-- gfx::GameWindow::UpdatePerspectiveProjection: rebuild the projection
from the stored field of view, the given width/height and the fixed planes
0.1 and 100.0. -/
def UpdatePerspectiveProjection (width height : Int) (s : GameWindowState) : GameWindowState :=
  { s with perspective_projection :=
      Mat4.persp (glmPerspective s.field_of_view ((width : Rat) / (height : Rat)) (1 / 10) 100) }

/-- gfx::GameWindow::UpdateDimensions: resize the window, query the real
framebuffer size, reset the viewport to it and recompute the projection
from it. -/
def UpdateDimensions (env : Env) (width height : Int) (s : GameWindowState) :
    GameWindowState × List GLEvent :=
  let rw := env.framebufferSize.1
  let rh := env.framebufferSize.2
  (UpdatePerspectiveProjection rw rh s,
   [GLEvent.setWindowSize width height, GLEvent.getFramebufferSize,
    GLEvent.viewport 0 0 rw rh])

/-- gfx::GameWindow::UpdateFieldOfView: store the new field of view, query
the real framebuffer size and recompute the projection from it. -/
def UpdateFieldOfView (env : Env) (fov : Rat) (s : GameWindowState) :
    GameWindowState × List GLEvent :=
  let s1 := { s with field_of_view := fov }
  (UpdatePerspectiveProjection env.framebufferSize.1 env.framebufferSize.2 s1,
   [GLEvent.getFramebufferSize])

/-- gfx::GameWindow::SetBufferClearColor. -/
def SetBufferClearColor (c : Color) : List GLEvent :=
  [GLEvent.clearColor c]

/-- gfx::GameWindow::InitializeGameWindow: set the context hints, create
the window (throwing when that fails, after a glfwTerminate), make the
context current, load GL, enable depth testing, set the clear color and
establish the initial viewport and projection via UpdateDimensions. -/
def InitializeGameWindow (env : Env) (width height : Int) (color : Color)
    (s : GameWindowState) : Except GfxException GameWindowState × List GLEvent :=
  let hints : List GLEvent :=
    [GLEvent.windowHint "GLFW_CONTEXT_VERSION_MAJOR" 3,
     GLEvent.windowHint "GLFW_CONTEXT_VERSION_MINOR" 3,
     GLEvent.windowHint "GLFW_OPENGL_PROFILE" 204801,
     GLEvent.windowHint "GLFW_OPENGL_FORWARD_COMPAT" 1,
     GLEvent.windowHint "GLFW_RESIZABLE" 0]
  if env.windowCreated then
    let ud := UpdateDimensions env width height s
    (Except.ok ud.1,
     hints ++ [GLEvent.createWindow true, GLEvent.makeContextCurrent, GLEvent.gladLoadGL,
               GLEvent.enable GL_DEPTH_TEST] ++ SetBufferClearColor color ++ ud.2)
  else
    (Except.error GfxException.GameWindowCannotBeInitializedException,
     hints ++ [GLEvent.createWindow false, GLEvent.glfwTerminateE])

/-- Content the code reads from a shader file: the full file when it can
be opened, and the empty string otherwise (an std::ifstream that fails to
open yields no characters through istreambuf_iterator, so the constructed
std::string is empty). -/
def readShaderFile (env : Env) (path : String) : String :=
  (env.fs path).getD ""

/-- gfx::GameWindow::CompileShader: read the file; on empty content return
handle 0 without calling the compiler; otherwise create a shader, submit
the source, compile, query compile status, and return 0 on failure or the
shader handle on success. -/
def CompileShader (env : Env) (path : String) (shader_type : Nat) : Nat × List GLEvent :=
  let content := readShaderFile env path
  if content.length = 0 then (0, [])
  else
    let shader := env.createShader shader_type
    let evs := [GLEvent.createShader shader_type shader,
                GLEvent.shaderSource shader content,
                GLEvent.compileShaderE shader,
                GLEvent.getShaderiv shader]
    if env.compileStatus shader then (shader, evs) else (0, evs)

/-- gfx::GameWindow::LinkProgram: compile both shaders, return 0 when
either compile returned 0; otherwise create a program, attach both, link,
delete both shader objects, query link status, and return 0 on link
failure (or, after a glfwTerminate, when the created program handle was 0)
and the program handle on success. -/
def LinkProgram (env : Env) (vertex_path fragment_path : String) : Nat × List GLEvent :=
  let v := CompileShader env vertex_path GL_VERTEX_SHADER
  let f := CompileShader env fragment_path GL_FRAGMENT_SHADER
  if v.1 = 0 ∨ f.1 = 0 then (0, v.2 ++ f.2)
  else
    let prog := env.createProgram
    let evs := v.2 ++ f.2 ++
      [GLEvent.createProgram prog, GLEvent.attachShader prog v.1,
       GLEvent.attachShader prog f.1, GLEvent.linkProgramE prog,
       GLEvent.deleteShader v.1, GLEvent.deleteShader f.1,
       GLEvent.getProgramiv prog]
    if env.linkStatus prog then
      if prog = 0 then (0, evs ++ [GLEvent.glfwTerminateE]) else (prog, evs)
    else (0, evs)

/-- Member-initializer state of a constructor call: program 0,
default-constructed projection matrix, stored field of view. -/
def initialState (fov : Rat) : GameWindowState :=
  { field_of_view := fov, program := 0, perspective_projection := Mat4.initial }

/-- The 7-argument gfx::GameWindow constructor: InitializeGameWindow, then
assign the LinkProgram result to the program member, and throw
GameWindowCannotBeInitializedException when it is 0. -/
def GameWindowNew (env : Env) (width height : Int) (vertex_path fragment_path : String)
    (fov : Rat) (color : Color) : Except GfxException GameWindowState × List GLEvent :=
  let ini := InitializeGameWindow env width height color (initialState fov)
  match ini.1 with
  | Except.error e => (Except.error e, ini.2)
  | Except.ok s1 =>
    let lp := LinkProgram env vertex_path fragment_path
    if lp.1 = 0 then
      (Except.error GfxException.GameWindowCannotBeInitializedException, ini.2 ++ lp.2)
    else (Except.ok { s1 with program := lp.1 }, ini.2 ++ lp.2)

/-- Default clear color of the 5-argument constructor.  Modelled from the
spec for the alpha channel: gfx/color.h is not under src, and the spec
calls the default clear color opaque black, so r = g = b = 0 and a = 1. -/
def colorOpaqueBlack : Color := { r := 0, g := 0, b := 0, a := 1 }

/-- The 5-argument gfx::GameWindow constructor: same steps with field of
view 45 and clear color black. -/
def GameWindowNewDefault (env : Env) (width height : Int)
    (vertex_path fragment_path : String) : Except GfxException GameWindowState × List GLEvent :=
  GameWindowNew env width height vertex_path fragment_path 45 colorOpaqueBlack

/-- gfx::GameWindow::PrepareRender (BeginFrame): activate the program,
clear color and depth buffers, upload the camera view matrix to the view
uniform and the stored projection to the projection uniform. -/
def PrepareRender (env : Env) (s : GameWindowState) : List GLEvent :=
  [GLEvent.useProgram s.program,
   GLEvent.clear (GL_COLOR_BUFFER_BIT ||| GL_DEPTH_BUFFER_BIT),
   GLEvent.getUniformLocation s.program "view",
   GLEvent.uniformMatrix4fv (env.uniformLocation s.program "view")
     (UniformMat.view env.viewTransform),
   GLEvent.getUniformLocation s.program "projection",
   GLEvent.uniformMatrix4fv (env.uniformLocation s.program "projection")
     (UniformMat.proj s.perspective_projection)]

/-- gfx::GameWindow::RenderModel (DrawOne): delegate to the draw routine
of the drawable, passing the stored program handle. -/
def RenderModel (inst : Nat) (s : GameWindowState) : List GLEvent :=
  [GLEvent.modelDraw inst s.program]

/-- gfx::GameWindow::FinishRender (EndFrame): swap the buffers. -/
def FinishRender : List GLEvent :=
  [GLEvent.swapBuffers]

/-- One well-formed frame: PrepareRender, then RenderModel on each listed
drawable, then FinishRender.  None of the three operations writes any
GameWindowState member, so the state is threaded unchanged. -/
def RunFrame (env : Env) (s : GameWindowState) (models : List Nat) : List GLEvent :=
  PrepareRender env s ++ (models.map (fun i => RenderModel i s)).flatten ++ FinishRender

/-- Last viewport rectangle established by a trace, when any. -/
def lastViewport (t : List GLEvent) : Option (Int × Int × Int × Int) :=
  t.foldl
    (fun acc e =>
      match e with
      | GLEvent.viewport x y w h => some (x, y, w, h)
      | _ => acc)
    none

/-- Projection matrix as the spec words it: computed from the field of
view, the aspect ratio real_width/real_height reported by the backend,
near plane 0.1 and far plane 100.0. -/
def specProjectionMatrix (fov : Rat) (rw rh : Int) : Mat4 :=
  Mat4.persp (glmPerspective fov ((rw : Rat) / (rh : Rat)) (1 / 10) 100)

/-- Concrete environment used by the evaluation witnesses: two readable
shader files, one empty file, everything else unreadable; all backend
operations succeed. -/
def sampleEnv : Env where
  fs := fun p =>
    if p = "v.glsl" then some "vsrc"
    else if p = "f.glsl" then some "fsrc"
    else if p = "empty.glsl" then some "" else none
  createShader := fun ty => if ty = GL_VERTEX_SHADER then 7 else 8
  compileStatus := fun _ => true
  createProgram := 42
  linkStatus := fun _ => true
  windowCreated := true
  framebufferSize := (800, 600)
  uniformLocation := fun _ n => Int.ofNat n.length
  viewTransform := 3

/-- State produced by a successful construction against `sampleEnv`. -/
def sampleState : GameWindowState :=
  { field_of_view := 45, program := 42,
    perspective_projection :=
      specProjectionMatrix 45 sampleEnv.framebufferSize.1 sampleEnv.framebufferSize.2 }

end Gfx

namespace Gfx

/-- Helper: an empty (or unreadable) shader file makes CompileShader
return handle 0 with no backend calls. -/
theorem CompileShader_of_empty (env : Env) (p : String) (ty : Nat)
    (h : readShaderFile env p = "") : CompileShader env p ty = (0, []) := by
  simp [CompileShader, h]

/-- Helper: LinkProgram returns 0 with the two compile traces and nothing
else when either compilation returned 0. -/
theorem LinkProgram_of_compile_zero (env : Env) (vp fp : String)
    (h : (CompileShader env vp GL_VERTEX_SHADER).1 = 0
      ∨ (CompileShader env fp GL_FRAGMENT_SHADER).1 = 0) :
    LinkProgram env vp fp
      = (0, (CompileShader env vp GL_VERTEX_SHADER).2
          ++ (CompileShader env fp GL_FRAGMENT_SHADER).2) := by
  simp only [LinkProgram]
  rw [if_pos h]

/-- Helper: a 0 result from LinkProgram makes the constructor throw. -/
theorem GameWindowNew_error_of_link_zero (env : Env) (w h : Int) (vp fp : String)
    (fov : Rat) (c : Color) (hl : (LinkProgram env vp fp).1 = 0) :
    (GameWindowNew env w h vp fp fov c).1
      = Except.error GfxException.GameWindowCannotBeInitializedException := by
  by_cases hw : env.windowCreated <;>
    simp [GameWindowNew, InitializeGameWindow, hw, hl]

/-- Helper: with a created window and a non-zero linked program the
constructor succeeds, and the resulting state is explicit. -/
theorem GameWindowNew_ok (env : Env) (w h : Int) (vp fp : String) (fov : Rat) (c : Color)
    (hw : env.windowCreated = true) (hl : (LinkProgram env vp fp).1 ≠ 0) :
    (GameWindowNew env w h vp fp fov c).1
      = Except.ok
          { field_of_view := fov, program := (LinkProgram env vp fp).1,
            perspective_projection :=
              specProjectionMatrix fov env.framebufferSize.1 env.framebufferSize.2 } := by
  simp [GameWindowNew, InitializeGameWindow, UpdateDimensions, UpdatePerspectiveProjection,
    initialState, specProjectionMatrix, hw, hl]

/-- C3: For every Material and every handle h, RemoveTexture(h) where h
matches neither the diffuse nor the specular handle leaves both handles
unchanged; where h matches exactly one of them, it clears only that one to
0 and leaves the other unchanged; and RemoveTexture(h) is idempotent:
calling it a second time with the same h changes nothing. -/
theorem removeTexture_cases_and_idempotent (m : Material) (h : Nat) :
    (m.diffuse_handle ≠ h ∧ m.specular_handle ≠ h → m.RemoveTexture h = m)
    ∧ (m.diffuse_handle = h ∧ m.specular_handle ≠ h →
        m.RemoveTexture h = { m with diffuse_handle := 0 })
    ∧ (m.diffuse_handle ≠ h ∧ m.specular_handle = h →
        m.RemoveTexture h = { m with specular_handle := 0 })
    ∧ (m.RemoveTexture h).RemoveTexture h = m.RemoveTexture h := by
  refine ⟨?_, ?_, ?_, ?_⟩
  · rintro ⟨hd, hs⟩
    simp [Material.RemoveTexture, hd, hs]
  · rintro ⟨hd, hs⟩
    simp [Material.RemoveTexture, hd, hs]
  · rintro ⟨hd, hs⟩
    simp [Material.RemoveTexture, hd, hs]
  · rcases m with ⟨sh, amb, dh, sph⟩
    by_cases hd : dh = h <;> by_cases hs : sph = h <;>
      by_cases h0 : (0 : Nat) = h <;> simp_all [Material.RemoveTexture]

/-- Witness for C3 at a concrete material and handle: removing a handle
that matches neither stored handle leaves the material unchanged. -/
theorem removeTexture_cases_and_idempotent_witness :
    Material.RemoveTexture ⟨32, 3 / 100, 5, 9⟩ 7 = ⟨32, 3 / 100, 5, 9⟩ :=
  (removeTexture_cases_and_idempotent ⟨32, 3 / 100, 5, 9⟩ 7).1 ⟨by decide, by decide⟩

/-- C1: For every shader source file that is empty (0 bytes), RenderSurface
construction fails by throwing SurfaceInitFailure
(GameWindowCannotBeInitializedException), regardless of whether the other
shader source is valid: CompileShader returns the null handle 0 for the
empty file, LinkProgram then returns 0, and the constructor throws on a 0
program. -/
theorem emptyShader_construction_fails (env : Env) (w h : Int) (vp fp : String)
    (fov : Rat) (c : Color)
    (hempty : readShaderFile env vp = "" ∨ readShaderFile env fp = "") :
    (readShaderFile env vp = "" → CompileShader env vp GL_VERTEX_SHADER = (0, []))
    ∧ (readShaderFile env fp = "" → CompileShader env fp GL_FRAGMENT_SHADER = (0, []))
    ∧ (LinkProgram env vp fp).1 = 0
    ∧ (GameWindowNew env w h vp fp fov c).1
        = Except.error GfxException.GameWindowCannotBeInitializedException := by
  have hcz : (CompileShader env vp GL_VERTEX_SHADER).1 = 0
      ∨ (CompileShader env fp GL_FRAGMENT_SHADER).1 = 0 := by
    rcases hempty with he | he
    · exact Or.inl (by rw [CompileShader_of_empty env vp _ he])
    · exact Or.inr (by rw [CompileShader_of_empty env fp _ he])
  have hl : (LinkProgram env vp fp).1 = 0 := by
    rw [LinkProgram_of_compile_zero env vp fp hcz]
  exact ⟨fun he => CompileShader_of_empty env vp _ he,
         fun he => CompileShader_of_empty env fp _ he,
         hl, GameWindowNew_error_of_link_zero env w h vp fp fov c hl⟩

/-- Witness for C1: against the sample environment, constructing with the
empty vertex shader file and the valid fragment shader throws. -/
theorem emptyShader_construction_fails_witness :
    (GameWindowNew sampleEnv 800 600 "empty.glsl" "f.glsl" 45 colorOpaqueBlack).1
      = Except.error GfxException.GameWindowCannotBeInitializedException :=
  (emptyShader_construction_fails sampleEnv 800 600 "empty.glsl" "f.glsl" 45
    colorOpaqueBlack (Or.inl (by decide))).2.2.2

/-- C2: For every call UpdateDimensions(w, h), the resulting projection
matrix equals the perspective matrix computed from the current
field-of-view, the aspect ratio real_width/real_height reported by the
framebuffer-size query of the backend (not necessarily w/h), near plane 0.1,
and far plane 100.0. -/
theorem updateDimensions_projection (env : Env) (w h : Int) (s : GameWindowState) :
    ((UpdateDimensions env w h s).1).perspective_projection
      = specProjectionMatrix s.field_of_view env.framebufferSize.1 env.framebufferSize.2
    ∧ GLEvent.viewport 0 0 env.framebufferSize.1 env.framebufferSize.2
        ∈ (UpdateDimensions env w h s).2 := by
  constructor
  · simp [UpdateDimensions, UpdatePerspectiveProjection, specProjectionMatrix]
  · simp [UpdateDimensions]

/-- C4: For every Material with diffuse handle equal to 0 and specular
handle nonzero, Bind(program) uploads diffuse-enabled = false and performs
no texture bind on texture unit 0, and uploads specular-enabled = true,
binds the specular handle on texture unit 1, and sets the
specular-sampler uniform to unit index 1. -/
theorem useMaterial_diffuse_absent_specular_present (env : Env) (m : Material) (p : Nat)
    (hd : m.diffuse_handle = 0) (hs : m.specular_handle ≠ 0) :
    GLEvent.uniform1i (env.uniformLocation p "diffuse_enabled") 0 ∈ m.UseMaterial env p
    ∧ (∀ initUnit, bindsToUnit initUnit (m.UseMaterial env p) GL_TEXTURE0 = [])
    ∧ GLEvent.uniform1i (env.uniformLocation p "specular_enabled") 1 ∈ m.UseMaterial env p
    ∧ (∀ initUnit, bindsToUnit initUnit (m.UseMaterial env p) GL_TEXTURE1
        = [m.specular_handle])
    ∧ GLEvent.uniform1i (env.uniformLocation p "specular_texture") 1 ∈ m.UseMaterial env p := by
  refine ⟨?_, ?_, ?_, ?_, ?_⟩ <;>
    simp [Material.UseMaterial, bindsToUnit, hd, hs, GL_TEXTURE0, GL_TEXTURE1]

/-- Witness for C4: a concrete material with no diffuse texture and
specular handle 9, bound into program 42 against the sample environment. -/
theorem useMaterial_diffuse_absent_specular_present_witness :
    GLEvent.uniform1i (sampleEnv.uniformLocation 42 "specular_enabled") 1
      ∈ Material.UseMaterial sampleEnv (Material.mkDefault 0 9 32) 42 :=
  (useMaterial_diffuse_absent_specular_present sampleEnv (Material.mkDefault 0 9 32) 42
    (by decide) (by decide)).2.2.1

/-- Helper: CompileShader never emits a glCreateProgram call. -/
theorem createProgram_notin_CompileShader (env : Env) (p : String) (ty pr : Nat) :
    GLEvent.createProgram pr ∉ (CompileShader env p ty).2 := by
  simp only [CompileShader]
  split
  · simp
  · split <;> simp

/-- C5: For every pair of shader paths, LinkProgram returns the null handle
0 immediately, creating no program object, when either shader compilation
returns 0; otherwise it creates a program, attaches both shaders, links,
and then deletes both individual shader objects unconditionally — whether
or not linking succeeded — before checking link status, returning 0 on
link failure and the linked program handle on success. -/
theorem linkProgram_failfast_and_cleanup (env : Env) (vp fp : String) :
    ((CompileShader env vp GL_VERTEX_SHADER).1 = 0
        ∨ (CompileShader env fp GL_FRAGMENT_SHADER).1 = 0 →
      (LinkProgram env vp fp).1 = 0
      ∧ ∀ pr, GLEvent.createProgram pr ∉ (LinkProgram env vp fp).2)
    ∧ ((CompileShader env vp GL_VERTEX_SHADER).1 ≠ 0
        ∧ (CompileShader env fp GL_FRAGMENT_SHADER).1 ≠ 0 →
      GLEvent.createProgram env.createProgram ∈ (LinkProgram env vp fp).2
      ∧ List.Sublist
          [GLEvent.attachShader env.createProgram (CompileShader env vp GL_VERTEX_SHADER).1,
           GLEvent.attachShader env.createProgram (CompileShader env fp GL_FRAGMENT_SHADER).1,
           GLEvent.linkProgramE env.createProgram,
           GLEvent.deleteShader (CompileShader env vp GL_VERTEX_SHADER).1,
           GLEvent.deleteShader (CompileShader env fp GL_FRAGMENT_SHADER).1,
           GLEvent.getProgramiv env.createProgram] (LinkProgram env vp fp).2
      ∧ (env.linkStatus env.createProgram = false → (LinkProgram env vp fp).1 = 0)
      ∧ (env.linkStatus env.createProgram = true →
          (LinkProgram env vp fp).1 = env.createProgram)) := by
  constructor
  · intro hz
    rw [LinkProgram_of_compile_zero env vp fp hz]
    refine ⟨rfl, fun pr => ?_⟩
    simp only [List.mem_append, not_or]
    exact ⟨createProgram_notin_CompileShader env vp GL_VERTEX_SHADER pr,
           createProgram_notin_CompileShader env fp GL_FRAGMENT_SHADER pr⟩
  · rintro ⟨hv, hf⟩
    have hcond : ¬((CompileShader env vp GL_VERTEX_SHADER).1 = 0
        ∨ (CompileShader env fp GL_FRAGMENT_SHADER).1 = 0) := by
      push_neg
      exact ⟨hv, hf⟩
    have hstep7 : List.Sublist
        [GLEvent.attachShader env.createProgram (CompileShader env vp GL_VERTEX_SHADER).1,
         GLEvent.attachShader env.createProgram (CompileShader env fp GL_FRAGMENT_SHADER).1,
         GLEvent.linkProgramE env.createProgram,
         GLEvent.deleteShader (CompileShader env vp GL_VERTEX_SHADER).1,
         GLEvent.deleteShader (CompileShader env fp GL_FRAGMENT_SHADER).1,
         GLEvent.getProgramiv env.createProgram]
        [GLEvent.createProgram env.createProgram,
         GLEvent.attachShader env.createProgram (CompileShader env vp GL_VERTEX_SHADER).1,
         GLEvent.attachShader env.createProgram (CompileShader env fp GL_FRAGMENT_SHADER).1,
         GLEvent.linkProgramE env.createProgram,
         GLEvent.deleteShader (CompileShader env vp GL_VERTEX_SHADER).1,
         GLEvent.deleteShader (CompileShader env fp GL_FRAGMENT_SHADER).1,
         GLEvent.getProgramiv env.createProgram] :=
      List.Sublist.cons _ (List.Sublist.refl _)
    have hstep8 : List.Sublist
        [GLEvent.attachShader 0 (CompileShader env vp GL_VERTEX_SHADER).1,
         GLEvent.attachShader 0 (CompileShader env fp GL_FRAGMENT_SHADER).1,
         GLEvent.linkProgramE 0,
         GLEvent.deleteShader (CompileShader env vp GL_VERTEX_SHADER).1,
         GLEvent.deleteShader (CompileShader env fp GL_FRAGMENT_SHADER).1,
         GLEvent.getProgramiv 0]
        [GLEvent.createProgram 0,
         GLEvent.attachShader 0 (CompileShader env vp GL_VERTEX_SHADER).1,
         GLEvent.attachShader 0 (CompileShader env fp GL_FRAGMENT_SHADER).1,
         GLEvent.linkProgramE 0,
         GLEvent.deleteShader (CompileShader env vp GL_VERTEX_SHADER).1,
         GLEvent.deleteShader (CompileShader env fp GL_FRAGMENT_SHADER).1,
         GLEvent.getProgramiv 0,
         GLEvent.glfwTerminateE] :=
      List.Sublist.cons _ (List.Sublist.cons₂ _ (List.Sublist.cons₂ _
        (List.Sublist.cons₂ _ (List.Sublist.cons₂ _ (List.Sublist.cons₂ _
          (List.Sublist.cons₂ _ (List.nil_sublist _)))))))
    refine ⟨?_, ?_, ?_, ?_⟩
    · by_cases hls : env.linkStatus env.createProgram = true
      · by_cases hp0 : env.createProgram = 0
        · rw [hp0] at hls
          simp [LinkProgram, if_neg hcond, hls, hp0]
        · simp [LinkProgram, if_neg hcond, hls, hp0]
      · simp [LinkProgram, if_neg hcond, hls]
    · by_cases hls : env.linkStatus env.createProgram = true
      · by_cases hp0 : env.createProgram = 0
        · rw [hp0] at hls
          simp [LinkProgram, if_neg hcond, hls, hp0]
          exact List.Sublist.trans
            (List.Sublist.trans hstep8
              (List.sublist_append_right (CompileShader env fp GL_FRAGMENT_SHADER).2 _))
            (List.sublist_append_right (CompileShader env vp GL_VERTEX_SHADER).2 _)
        · simp [LinkProgram, if_neg hcond, hls, hp0]
          exact List.Sublist.trans
            (List.Sublist.trans hstep7
              (List.sublist_append_right (CompileShader env fp GL_FRAGMENT_SHADER).2 _))
            (List.sublist_append_right (CompileShader env vp GL_VERTEX_SHADER).2 _)
      · simp [LinkProgram, if_neg hcond, hls]
        exact List.Sublist.trans
          (List.Sublist.trans hstep7
            (List.sublist_append_right (CompileShader env fp GL_FRAGMENT_SHADER).2 _))
          (List.sublist_append_right (CompileShader env vp GL_VERTEX_SHADER).2 _)
    · intro hls
      simp [LinkProgram, if_neg hcond, hls]
    · intro hls
      by_cases hp0 : env.createProgram = 0
      · rw [hp0] at hls
        simp [LinkProgram, if_neg hcond, hls, hp0]
      · simp [LinkProgram, if_neg hcond, hls, hp0]

/-- Witness for C5: linking the two valid sample shaders yields the
backend-created program handle. -/
theorem linkProgram_failfast_and_cleanup_witness :
    (LinkProgram sampleEnv "v.glsl" "f.glsl").1 = sampleEnv.createProgram :=
  ((linkProgram_failfast_and_cleanup sampleEnv "v.glsl" "f.glsl").2
    ⟨by decide, by decide⟩).2.2.2 (by decide)

/-- Helper: every run of either constructor ends in a state with a
non-zero program handle or in the initialization exception. -/
theorem GameWindowNew_cases (env : Env) (w h : Int) (vp fp : String) (fov : Rat)
    (c : Color) :
    (∃ s, (GameWindowNew env w h vp fp fov c).1 = Except.ok s ∧ s.program ≠ 0)
    ∨ (GameWindowNew env w h vp fp fov c).1
        = Except.error GfxException.GameWindowCannotBeInitializedException := by
  by_cases hw : env.windowCreated = true
  · by_cases hl : (LinkProgram env vp fp).1 = 0
    · exact Or.inr (GameWindowNew_error_of_link_zero env w h vp fp fov c hl)
    · exact Or.inl ⟨_, GameWindowNew_ok env w h vp fp fov c hw hl, hl⟩
  · refine Or.inr ?_
    simp [GameWindowNew, InitializeGameWindow, hw]

/-- C6: RenderSurface construction is atomic at the interface: for every
input, each of the two constructors either completes with a non-zero
program handle or throws GameWindowCannotBeInitializedException; there is
no terminating execution of a constructor that returns normally with
program equal to 0. -/
theorem construction_atomic (env : Env) (w h : Int) (vp fp : String) (fov : Rat)
    (c : Color) :
    ((∃ s, (GameWindowNew env w h vp fp fov c).1 = Except.ok s ∧ s.program ≠ 0)
      ∨ (GameWindowNew env w h vp fp fov c).1
          = Except.error GfxException.GameWindowCannotBeInitializedException)
    ∧ ((∃ s, (GameWindowNewDefault env w h vp fp).1 = Except.ok s ∧ s.program ≠ 0)
      ∨ (GameWindowNewDefault env w h vp fp).1
          = Except.error GfxException.GameWindowCannotBeInitializedException) :=
  ⟨GameWindowNew_cases env w h vp fp fov c,
   GameWindowNew_cases env w h vp fp 45 colorOpaqueBlack⟩

/-- C7: Every call to UpdateFieldOfView(fov2) stores fov2 as the new
field-of-view and recomputes the projection matrix from fov2 and the live
backend-reported framebuffer size, while the viewport and framebuffer
dimensions remain those last established by UpdateDimensions
(UpdateFieldOfView does not resize the window or reset the viewport). -/
theorem updateFieldOfView_decoupled (env : Env) (fov2 : Rat) (w h : Int)
    (s : GameWindowState) :
    ((UpdateFieldOfView env fov2 (UpdateDimensions env w h s).1).1).field_of_view = fov2
    ∧ ((UpdateFieldOfView env fov2 (UpdateDimensions env w h s).1).1).perspective_projection
        = specProjectionMatrix fov2 env.framebufferSize.1 env.framebufferSize.2
    ∧ (∀ x y a b, GLEvent.viewport x y a b
        ∉ (UpdateFieldOfView env fov2 (UpdateDimensions env w h s).1).2)
    ∧ (∀ a b, GLEvent.setWindowSize a b
        ∉ (UpdateFieldOfView env fov2 (UpdateDimensions env w h s).1).2)
    ∧ lastViewport ((UpdateDimensions env w h s).2
        ++ (UpdateFieldOfView env fov2 (UpdateDimensions env w h s).1).2)
        = lastViewport (UpdateDimensions env w h s).2 := by
  refine ⟨?_, ?_, ?_, ?_, ?_⟩ <;>
    simp [UpdateFieldOfView, UpdateDimensions, UpdatePerspectiveProjection,
      specProjectionMatrix, lastViewport]

/-- C8: Every call to PrepareRender performs, in this order: activate the
stored program, clear both the color and depth buffers, upload the camera
view matrix to the view uniform slot, and upload the stored projection
matrix to the projection uniform slot. -/
theorem prepareRender_order (env : Env) (s : GameWindowState) :
    (PrepareRender env s).head? = some (GLEvent.useProgram s.program)
    ∧ List.Sublist
        [GLEvent.useProgram s.program,
         GLEvent.clear (GL_COLOR_BUFFER_BIT ||| GL_DEPTH_BUFFER_BIT),
         GLEvent.uniformMatrix4fv (env.uniformLocation s.program "view")
           (UniformMat.view env.viewTransform),
         GLEvent.uniformMatrix4fv (env.uniformLocation s.program "projection")
           (UniformMat.proj s.perspective_projection)] (PrepareRender env s) := by
  refine ⟨rfl, ?_⟩
  simp only [PrepareRender]
  exact List.Sublist.cons₂ _ (List.Sublist.cons₂ _ (List.Sublist.cons _
    (List.Sublist.cons₂ _ (List.Sublist.cons _ (List.Sublist.cons₂ _
      List.Sublist.slnil)))))

/-- C9: For every well-formed frame sequence after a successful
construction (PrepareRender, then any number of RenderModel calls, then
FinishRender), the program handle passed to the draw routine of each drawable
equals the program handle activated and used for the uniform uploads, and
no operation in the frame changes the stored program handle. -/
theorem frame_uses_single_program (env : Env) (w h : Int) (vp fp : String) (fov : Rat)
    (c : Color) (s : GameWindowState) (models : List Nat)
    (hctor : (GameWindowNew env w h vp fp fov c).1 = Except.ok s) :
    s.program ≠ 0
    ∧ GLEvent.useProgram s.program ∈ RunFrame env s models
    ∧ ∀ i p, GLEvent.modelDraw i p ∈ RunFrame env s models → p = s.program := by
  have hnz : s.program ≠ 0 := by
    rcases GameWindowNew_cases env w h vp fp fov c with ⟨s2, hok, hs2⟩ | herr
    · rw [hctor] at hok
      injection hok with he
      rwa [he]
    · rw [hctor] at herr
      exact absurd herr (by simp)
  refine ⟨hnz, ?_, ?_⟩
  · simp [RunFrame, PrepareRender]
  · intro i p hp
    simp only [RunFrame, PrepareRender, RenderModel, FinishRender, List.mem_append,
      List.mem_flatten, List.mem_map, List.mem_cons, List.mem_singleton,
      List.not_mem_nil] at hp
    rcases hp with (h1 | ⟨l, ⟨a, _, hl⟩, hel⟩) | h2
    · simp at h1
    · subst hl
      simp at hel
      exact hel.2
    · simp at h2

/-- Witness for C9: a frame over the state constructed against the sample
environment activates the constructed program handle 42. -/
theorem frame_uses_single_program_witness :
    GLEvent.useProgram sampleState.program ∈ RunFrame sampleEnv sampleState [5] :=
  (frame_uses_single_program sampleEnv 800 600 "v.glsl" "f.glsl" 45 colorOpaqueBlack
    sampleState [5] (GameWindowNew_ok sampleEnv 800 600 "v.glsl" "f.glsl" 45
      colorOpaqueBlack rfl (by decide))).2.1

/-- C10: For every shader path that cannot be opened or read, CompileShader
behaves exactly as for an empty (0-byte) file: the read yields empty
content and CompileShader returns the null handle 0 without ever invoking
the compiler, so a missing or unreadable shader file makes construction
fail with GameWindowCannotBeInitializedException. -/
theorem unreadableShader_construction_fails (env : Env) (w h : Int) (vp fp : String)
    (fov : Rat) (c : Color) (hmiss : env.fs vp = none ∨ env.fs fp = none) :
    (env.fs vp = none → readShaderFile env vp = ""
      ∧ CompileShader env vp GL_VERTEX_SHADER = (0, []))
    ∧ (env.fs fp = none → readShaderFile env fp = ""
      ∧ CompileShader env fp GL_FRAGMENT_SHADER = (0, []))
    ∧ (LinkProgram env vp fp).1 = 0
    ∧ (GameWindowNew env w h vp fp fov c).1
        = Except.error GfxException.GameWindowCannotBeInitializedException := by
  have hv : env.fs vp = none → readShaderFile env vp = "" := fun hn => by
    simp [readShaderFile, hn]
  have hf : env.fs fp = none → readShaderFile env fp = "" := fun hn => by
    simp [readShaderFile, hn]
  have hempty : readShaderFile env vp = "" ∨ readShaderFile env fp = "" := by
    rcases hmiss with hn | hn
    · exact Or.inl (hv hn)
    · exact Or.inr (hf hn)
  obtain ⟨h1, h2, h3, h4⟩ := emptyShader_construction_fails env w h vp fp fov c hempty
  exact ⟨fun hn => ⟨hv hn, h1 (hv hn)⟩, fun hn => ⟨hf hn, h2 (hf hn)⟩, h3, h4⟩

/-- Witness for C10: against the sample environment, a path that cannot be
opened makes construction throw. -/
theorem unreadableShader_construction_fails_witness :
    (GameWindowNew sampleEnv 800 600 "missing.glsl" "f.glsl" 45 colorOpaqueBlack).1
      = Except.error GfxException.GameWindowCannotBeInitializedException :=
  (unreadableShader_construction_fails sampleEnv 800 600 "missing.glsl" "f.glsl" 45
    colorOpaqueBlack (Or.inl (by decide))).2.2.2

end Gfx
